import Mathlib

/-!
Verification of the zftpd FTP server core against its specification.

The definitions below are a shallow embedding of the C sources:
  * `src/src/ftp_path.c`     — path normalization, resolution, chroot check
  * `src/src/ftp_crypto.c`   — ChaCha20 stream cipher
  * `src/src/ftp_session.c`  — reply/data sending, command dispatch
  * `src/src/ftp_commands.c` — command handlers
  * `src/src/ftp_protocol.c` — command-line parsing, command table

C strings are embedded as `List Char` (no terminating NUL; the embedded
functions are only applied to NUL-free strings), byte buffers as `List Nat`
(each element a byte value), machine integers as `Nat`/`Int` with explicit
`% 2 ^ 32` where 32-bit wrap-around matters.  Fallible C functions returning
`ftp_error_t` become `Except Int _` or carry the error code in their result.
Side effects on sockets are recorded as an `Event` trace.  Wall-clock time,
logging and the atomic statistics counters are not modelled (no claim
mentions them).
-/

set_option maxRecDepth 40000

namespace ZFtpd

/-! ### Configuration constants (src/include/ftp_config.h, POSIX defaults) -/

def FTP_PATH_MAX : Nat := 4096

def MAX_PATH_COMPONENTS : Nat := 128

def FTP_CMD_BUFFER_SIZE : Nat := 512

def FTP_REPLY_BUFFER_SIZE : Nat := 1024

def FTP_MAX_AUTH_ATTEMPTS : Nat := 3

def FTP_AUTH_DELAY : Nat := 2

/-! ### Error codes (src/include/ftp_types.h, `ftp_error_t`) -/

def FTP_OK : Int := 0

def FTP_ERR_INVALID_PARAM : Int := -1

def FTP_ERR_SOCKET_SEND : Int := -7

def FTP_ERR_SOCKET_RECV : Int := -8

def FTP_ERR_PATH_INVALID : Int := -15

def FTP_ERR_PATH_TOO_LONG : Int := -16

def FTP_ERR_NOT_FOUND : Int := -17

def FTP_ERR_PERMISSION : Int := -18

def FTP_ERR_AUTH_FAILED : Int := -21

def FTP_ERR_PROTOCOL : Int := -22

/-! ### Path normalization (src/src/ftp_path.c:32-130, `ftp_path_normalize`)

The C function tokenizes the input with `strtok(temp, "/")` — which yields
the maximal nonempty runs of non-`'/'` characters — processing each token
as it is produced.  `tokensAux` is that tokenizer (accumulating the current
run in reverse), `processComponents` is the `.`/`..`/push loop over the
token list, and `buildOutput` is the output-reconstruction loop including
its buffer-capacity check.  -/

def tokensAux : List Char → List Char → List (List Char)
  | [], cur => if cur = [] then [] else [cur.reverse]
  | c :: cs, cur =>
    if c = '/' then
      if cur = [] then tokensAux cs [] else cur.reverse :: tokensAux cs []
    else
      tokensAux cs (c :: cur)

def tokens (l : List Char) : List (List Char) :=
  tokensAux l []

/-- The component-stack loop of `ftp_path_normalize` (ftp_path.c:75-94).
`none` models the `FTP_ERR_PATH_TOO_LONG` return for exceeding
`MAX_PATH_COMPONENTS`. -/
def processComponents : List (List Char) → List (List Char) → Option (List (List Char))
  | [], stack => some stack
  | t :: ts, stack =>
    if t = ['.'] then
      processComponents ts stack
    else if t = ['.', '.'] then
      processComponents ts stack.dropLast
    else if 0 < t.length then
      if MAX_PATH_COMPONENTS ≤ stack.length then none
      else processComponents ts (stack ++ [t])
    else
      processComponents ts stack

/-- The reconstruction loop of `ftp_path_normalize` (ftp_path.c:107-127):
emits `'/' ++ component` per component, guarding
`offset + comp_len + 2 ≤ size` before each append. -/
def buildOutput : List (List Char) → Nat → Nat → Option (List Char)
  | [], _, _ => some []
  | c :: cs, offset, size =>
    if size < offset + c.length + 2 then none
    else
      match buildOutput cs (offset + 1 + c.length) size with
      | none => none
      | some rest => some ('/' :: c ++ rest)

/-- `ftp_path_normalize` (ftp_path.c:32-130).  `size` is the capacity of the
caller's output buffer (every caller in the program passes a buffer of
`FTP_PATH_MAX` bytes). -/
def ftp_path_normalize (path : List Char) (size : Nat) : Except Int (List Char) :=
  if size = 0 then .error FTP_ERR_INVALID_PARAM
  else if FTP_PATH_MAX ≤ path.length then .error FTP_ERR_PATH_TOO_LONG
  else if path.length = 0 then
    if size < 2 then .error FTP_ERR_PATH_TOO_LONG else .ok ['/']
  else
    match processComponents (tokens path) [] with
    | none => .error FTP_ERR_PATH_TOO_LONG
    | some [] => if size < 2 then .error FTP_ERR_PATH_TOO_LONG else .ok ['/']
    | some comps =>
      match buildOutput comps 0 size with
      | none => .error FTP_ERR_PATH_TOO_LONG
      | some out => .ok out

/-- `ftp_path_resolve` (ftp_path.c:139-184).  The pointer NULL checks are not
modelled; the absolute branch's second `path_len >= sizeof(temp)` test is
subsumed by the earlier `path_len >= FTP_PATH_MAX` test (both bounds are
`FTP_PATH_MAX`). -/
def ftp_path_resolve (cwd path : List Char) (size : Nat) : Except Int (List Char) :=
  if size < FTP_PATH_MAX then .error FTP_ERR_INVALID_PARAM
  else if FTP_PATH_MAX ≤ path.length then .error FTP_ERR_PATH_TOO_LONG
  else if path.head? = some '/' then
    ftp_path_normalize path size
  else if FTP_PATH_MAX ≤ cwd.length + path.length + 2 then .error FTP_ERR_PATH_TOO_LONG
  else
    ftp_path_normalize (cwd ++ '/' :: path) size

/-- `ftp_path_is_within_root` (ftp_path.c:193-231).  The C function returns an
`int` used as a boolean by all callers; the NULL-pointer branch is not
modelled.  `path.take root.length = root` is `strncmp(path, root, root_len)
== 0`. -/
def ftp_path_is_within_root (path root : List Char) : Bool :=
  if ¬(path.head? = some '/' ∧ root.head? = some '/') then false
  else if root.length = 1 ∧ root.head? = some '/' then true
  else if path.length < root.length then false
  else if ¬(path.take root.length = root) then false
  else if root.length < path.length ∧ ¬(path.get? root.length = some '/') then false
  else true

/-- The membership predicate the specification describes for
`is_within_root` (spec §4.1); used to state the corrected C8 claim. -/
def withinRootSpec (path root : List Char) : Prop :=
  root = ['/'] ∨ path = root ∨ (root <+: path ∧ path.get? root.length = some '/')

instance (path root : List Char) : Decidable (withinRootSpec path root) := by
  unfold withinRootSpec
  infer_instance

/-! ### ChaCha20 stream cipher (src/src/ftp_crypto.c)

32-bit words are `Nat` values kept below `2 ^ 32` by explicit reductions.
Byte buffers are `List Nat`. -/

/-- `rotl32` (ftp_crypto.c:70-72): 32-bit rotate left, for `0 < n < 32`. -/
def rotl32 (v n : Nat) : Nat :=
  ((v <<< n) % 4294967296) ||| (v >>> (32 - n))

/-- `quarter_round` (ftp_crypto.c:82-96). -/
def quarterRound (a b c d : Nat) : Nat × Nat × Nat × Nat :=
  let a := (a + b) % 4294967296
  let d := rotl32 (d ^^^ a) 16
  let c := (c + d) % 4294967296
  let b := rotl32 (b ^^^ c) 12
  let a := (a + b) % 4294967296
  let d := rotl32 (d ^^^ a) 8
  let c := (c + d) % 4294967296
  let b := rotl32 (b ^^^ c) 7
  (a, b, c, d)

/-- Apply `quarter_round` to the state words at indices `i0 i1 i2 i3`. -/
def qrOn (st : List Nat) (i0 i1 i2 i3 : Nat) : List Nat :=
  match quarterRound (st.getD i0 0) (st.getD i1 0) (st.getD i2 0) (st.getD i3 0) with
  | (a, b, c, d) => (((st.set i0 a).set i1 b).set i2 c).set i3 d

/-- One double round (column round + diagonal round) of the 20-round loop
(ftp_crypto.c:127-138). -/
def doubleRound (st : List Nat) : List Nat :=
  let st := qrOn st 0 4 8 12
  let st := qrOn st 1 5 9 13
  let st := qrOn st 2 6 10 14
  let st := qrOn st 3 7 11 15
  let st := qrOn st 0 5 10 15
  let st := qrOn st 1 6 11 12
  let st := qrOn st 2 7 8 13
  qrOn st 3 4 9 14

def doubleRounds : Nat → List Nat → List Nat
  | 0, st => st
  | n + 1, st => doubleRounds n (doubleRound st)

/-- `store32_le` (ftp_crypto.c:109-114): serialize a 32-bit word to 4
little-endian bytes. -/
def store32_le (v : Nat) : List Nat :=
  [v % 256, (v >>> 8) % 256, (v >>> 16) % 256, (v >>> 24) % 256]

/-- `load32_le` (ftp_crypto.c:101-104). -/
def load32_le (b0 b1 b2 b3 : Nat) : Nat :=
  b0 ||| (b1 <<< 8) ||| (b2 <<< 16) ||| (b3 <<< 24)

/-- `chacha20_block` (ftp_crypto.c:122-149): 10 double rounds, add the
original state, serialize little-endian. -/
def chacha20_block (state : List Nat) : List Nat :=
  ((List.zipWith (fun x s => (x + s) % 4294967296) (doubleRounds 10 state) state).map
    store32_le).flatten

/-- `SIGMA` (ftp_crypto.c:156-161): "expand 32-byte k". -/
def SIGMA : List Nat :=
  [0x61707865, 0x3320646E, 0x79622D32, 0x6B206574]

/-- `ftp_crypto_ctx_t` (src/include/ftp_crypto.h): 16-word state, next block
counter, 64-byte keystream cache, offset into it, active flag. -/
structure CryptoCtx where
  state : List Nat
  counter : Nat
  keystream : List Nat
  ks_offset : Nat
  active : Bool
deriving DecidableEq

/-- `ftp_crypto_init` (ftp_crypto.c:163-191): key is 32 bytes, nonce 12
bytes; `ks_offset = 64` forces block generation on the first xor. -/
def ftp_crypto_init (key nonce : List Nat) : CryptoCtx :=
  let keyWords := (List.range 8).map fun i =>
    load32_le (key.getD (4 * i) 0) (key.getD (4 * i + 1) 0)
      (key.getD (4 * i + 2) 0) (key.getD (4 * i + 3) 0)
  let nonceWords := (List.range 3).map fun i =>
    load32_le (nonce.getD (4 * i) 0) (nonce.getD (4 * i + 1) 0)
      (nonce.getD (4 * i + 2) 0) (nonce.getD (4 * i + 3) 0)
  { state := SIGMA ++ keyWords ++ 0 :: nonceWords
    counter := 0
    keystream := List.replicate 64 0
    ks_offset := 64
    active := true }

/-- Keystream-cache regeneration step of `ftp_crypto_xor`
(ftp_crypto.c:203-208): write the counter into word 12, produce a block,
bump the counter, rewind the cache offset. -/
def cryptoRefill (ctx : CryptoCtx) : CryptoCtx :=
  if 64 ≤ ctx.ks_offset then
    { ctx with
      state := ctx.state.set 12 ctx.counter
      keystream := chacha20_block (ctx.state.set 12 ctx.counter)
      counter := ctx.counter + 1
      ks_offset := 0 }
  else ctx

/-- `ftp_crypto_xor` (ftp_crypto.c:193-222).  The C loop XORs
`min(remaining, 64 - ks_offset)` bytes per iteration, pairing byte `i` with
`keystream[ks_offset + i]` and then advancing `ks_offset` by the chunk
size; this definition unrolls that loop one byte at a time, which pairs
each data byte with the same keystream byte and reaches the same final
context (regeneration can only trigger at `ks_offset = 64`, exactly the
chunk boundaries of the C loop). -/
def ftp_crypto_xor : CryptoCtx → List Nat → List Nat × CryptoCtx
  | ctx, [] => ([], ctx)
  | ctx, b :: rest =>
    let ctx1 := cryptoRefill ctx
    let k := ctx1.keystream.getD ctx1.ks_offset 0
    let r := ftp_crypto_xor { ctx1 with ks_offset := ctx1.ks_offset + 1 } rest
    ((b ^^^ k) :: r.fst, r.snd)

/-- The all-zero (inactive) crypto context a fresh session carries after
`memset(session, 0, ...)` in `ftp_session_init` (ftp_session.c:73). -/
def inactiveCrypto : CryptoCtx :=
  { state := List.replicate 16 0
    counter := 0
    keystream := List.replicate 64 0
    ks_offset := 0
    active := false }

/-! ### Session model (src/include/ftp_types.h, `ftp_session_t`)

Only the fields the claims touch are carried.  IPv4 addresses are kept as
the four octets of `sin_addr` (two `sockaddr_in` values compare equal on
`s_addr` exactly when their octet quadruples are equal); thread handles,
timestamps, the rx ring buffer and the statistics counters are not
modelled. -/

inductive DataMode
  | modeNone
  | modeActive
  | modePassive
deriving DecidableEq

structure SockAddr where
  ip : Nat × Nat × Nat × Nat
  port : Nat
deriving DecidableEq

structure Session where
  ctrl_fd : Int
  ctrl_addr : SockAddr
  data_fd : Int
  pasv_fd : Int
  data_addr : SockAddr
  data_mode : DataMode
  restart_offset : Int
  root_path : List Char
  cwd : List Char
  rename_from : List Char
  auth_attempts : Nat
  authenticated : Bool
  user_ok : Bool
  crypto : CryptoCtx
deriving DecidableEq

/-- Observable socket side effects of a handler: the exact byte sequences
handed to `pal_send_all` on the control (`sendCtrl`) and data (`sendData`)
sockets, kernel `sendfile` transfers, and `sleep` calls. -/
inductive Event
  | sendCtrl (bytes : List Nat)
  | sendData (bytes : List Nat)
  | sendfileBytes (n : Nat)
  | sleepSec (seconds : Nat)
deriving DecidableEq

/-! ### Reply codec (src/src/ftp_protocol.c) -/

/-- `get_default_message` (ftp_protocol.c:123-188). -/
def get_default_message (code : Nat) : String :=
  if code = 150 then "File status okay; about to open data connection."
  else if code = 200 then "Command okay."
  else if code = 211 then "System status."
  else if code = 214 then "Help message."
  else if code = 215 then "UNIX Type: L8"
  else if code = 220 then "Service ready for new user."
  else if code = 221 then "Service closing control connection."
  else if code = 225 then "Data connection open; no transfer in progress."
  else if code = 226 then "Closing data connection. Transfer complete."
  else if code = 230 then "User logged in, proceed."
  else if code = 250 then "Requested file action okay, completed."
  else if code = 331 then "User name okay, need password."
  else if code = 350 then "Requested file action pending further information."
  else if code = 421 then "Service not available, closing control connection."
  else if code = 425 then "Can\x27t open data connection."
  else if code = 426 then "Connection closed; transfer aborted."
  else if code = 450 then "Requested file action not taken."
  else if code = 451 then "Requested action aborted: local error."
  else if code = 500 then "Syntax error, command unrecognized."
  else if code = 501 then "Syntax error in parameters or arguments."
  else if code = 502 then "Command not implemented."
  else if code = 503 then "Bad sequence of commands."
  else if code = 530 then "Not logged in."
  else if code = 550 then "Requested action not taken. File unavailable."
  else if code = 553 then "Requested action not taken. File name not allowed."
  else "Unknown reply code."

/-- `ftp_format_reply` (ftp_protocol.c:335-360) at the buffer size every
caller uses (`FTP_REPLY_BUFFER_SIZE`): produce the bytes of
`"<code> <message>\r\n"`, failing on truncation. -/
def ftp_format_reply (code : Nat) (message : Option String) : Except Int (List Nat) :=
  let msg := message.getD (get_default_message code)
  let line := toString code ++ " " ++ msg ++ "\x0d\x0a"
  if FTP_REPLY_BUFFER_SIZE ≤ line.length then .error FTP_ERR_INVALID_PARAM
  else .ok (line.toList.map Char.toNat)

/-- `ftp_session_send_reply` (ftp_session.c:258-285).  `pal_send_all`
(pal_network.c:300-343) loops until the whole buffer is on the wire, so the
successful-send behaviour is modelled; note that no crypto transform is
applied to the bytes.  Returns the emitted events and the C return value. -/
def ftp_session_send_reply (s : Session) (code : Nat) (message : Option String) :
    List Event × Int :=
  if s.ctrl_fd < 0 then ([], FTP_ERR_SOCKET_SEND)
  else
    match ftp_format_reply code message with
    | .error e => ([], e)
    | .ok bytes => ([Event.sendCtrl bytes], FTP_OK)

/-- `ftp_session_send_data` (ftp_session.c:572-592).  The token-bucket
`rate_limit` call is a no-op at the default configuration
(`FTP_TRANSFER_RATE_LIMIT_BPS = 0`); statistics are not modelled.  As with
`ftp_session_send_reply`, the buffer bytes go to the socket unmodified. -/
def ftp_session_send_data (s : Session) (buffer : List Nat) : List Event × Int :=
  if buffer = [] then ([], FTP_ERR_INVALID_PARAM)
  else if s.data_fd < 0 then ([], FTP_ERR_SOCKET_SEND)
  else ([Event.sendData buffer], (buffer.length : Int))

/-- `ftp_session_close_data_connection` (ftp_session.c:549-567). -/
def ftp_session_close_data_connection (s : Session) : Session :=
  { s with data_fd := -1, pasv_fd := -1, data_mode := DataMode.modeNone,
           restart_offset := 0 }

/-- Decode the 3-digit reply code from a formatted control-channel reply,
as the repository's own tests do (src/tests/test_security.c,
`read_reply_code`). -/
def replyCode : Event → Option Nat
  | Event.sendCtrl (a :: b :: c :: _) =>
    if 48 ≤ a ∧ a ≤ 57 ∧ 48 ≤ b ∧ b ≤ 57 ∧ 48 ≤ c ∧ c ≤ 57 then
      some ((a - 48) * 100 + (b - 48) * 10 + (c - 48))
    else none
  | _ => none

/-- Code of the first reply in an event trace. -/
def firstReplyCode (evs : List Event) : Option Nat :=
  evs.head?.bind replyCode

/-! ### Command parsing and dispatch (src/src/ftp_protocol.c, ftp_session.c) -/

/-- The whitespace class of C `isspace` in the POSIX locale. -/
def isSpaceChar (c : Char) : Bool :=
  c = ' ' ∨ c = '\t' ∨ c = '\n' ∨ c = '\x0b' ∨ c = '\x0c' ∨ c = '\x0d'

/-- `ftp_parse_command_line` (ftp_protocol.c:197-262) at the buffer sizes the
dispatcher passes (`cmd_size = 64`, `args_size = FTP_CMD_BUFFER_SIZE`):
split at the first `' '`, uppercase the verb, trim the argument. -/
def ftp_parse_command_line (line : List Char) : Except Int (List Char × List Char) :=
  let cmdPart := line.takeWhile (· ≠ ' ')
  let restPart := line.dropWhile (· ≠ ' ')
  if cmdPart.length = 0 ∨ 64 ≤ cmdPart.length then .error FTP_ERR_PROTOCOL
  else
    let cmd := cmdPart.map Char.toUpper
    match restPart with
    | [] => .ok (cmd, [])
    | _ :: afterSpace =>
      let argStart := afterSpace.dropWhile isSpaceChar
      let arg := (argStart.reverse.dropWhile isSpaceChar).reverse
      if FTP_CMD_BUFFER_SIZE ≤ arg.length then .error FTP_ERR_PROTOCOL
      else .ok (cmd, arg)

/-- `ftp_args_req_t` (ftp_types.h:285-289). -/
inductive ArgsReq
  | argNone
  | argRequired
  | argOptional
deriving DecidableEq

/-- `command_table` (ftp_protocol.c:51-111) with the default POSIX feature
flags (`FTP_ENABLE_MLST/SIZE/MDTM/REST/CRYPTO` all enabled).  Handler
behaviour is supplied separately to the dispatcher, mirroring the C
function pointers. -/
def command_table : List (String × ArgsReq) :=
  [("USER", ArgsReq.argRequired), ("PASS", ArgsReq.argOptional),
   ("QUIT", ArgsReq.argNone), ("NOOP", ArgsReq.argNone),
   ("CWD", ArgsReq.argRequired), ("CDUP", ArgsReq.argNone),
   ("PWD", ArgsReq.argNone),
   ("LIST", ArgsReq.argOptional), ("NLST", ArgsReq.argOptional),
   ("MLSD", ArgsReq.argOptional), ("MLST", ArgsReq.argOptional),
   ("RETR", ArgsReq.argRequired), ("STOR", ArgsReq.argRequired),
   ("APPE", ArgsReq.argRequired), ("REST", ArgsReq.argRequired),
   ("DELE", ArgsReq.argRequired), ("RMD", ArgsReq.argRequired),
   ("MKD", ArgsReq.argRequired), ("RNFR", ArgsReq.argRequired),
   ("RNTO", ArgsReq.argRequired),
   ("PORT", ArgsReq.argRequired), ("PASV", ArgsReq.argNone),
   ("SIZE", ArgsReq.argRequired), ("MDTM", ArgsReq.argRequired),
   ("STAT", ArgsReq.argOptional), ("SYST", ArgsReq.argNone),
   ("FEAT", ArgsReq.argNone), ("HELP", ArgsReq.argOptional),
   ("TYPE", ArgsReq.argRequired), ("MODE", ArgsReq.argRequired),
   ("STRU", ArgsReq.argRequired), ("AUTH", ArgsReq.argRequired)]

/-- `ftp_find_command` (ftp_protocol.c:267-280): linear scan. -/
def ftp_find_command (cmd : List Char) : Option (String × ArgsReq) :=
  command_table.find? fun e => e.fst.toList = cmd

/-- `ftp_validate_command_args` (ftp_protocol.c:285-315). -/
def ftp_validate_command_args (req : ArgsReq) (args : Option (List Char)) : Int :=
  let has_args : Bool := match args with
    | some a => decide (a ≠ [])
    | none => false
  match req with
  | ArgsReq.argNone => if has_args then FTP_ERR_PROTOCOL else FTP_OK
  | ArgsReq.argRequired => if has_args then FTP_OK else FTP_ERR_PROTOCOL
  | ArgsReq.argOptional => FTP_OK

/-- The verbs admitted before authentication
(ftp_session.c:744-755). -/
def preAuthVerbs : List (List Char) :=
  ["USER", "PASS", "QUIT", "NOOP", "FEAT", "SYST"].map String.toList

/-- A handler assignment: the behaviour bound to each verb of the command
table, as the C function pointers are.  It consumes the session and the
(possibly absent) argument string and yields the updated session, the
emitted events and the `ftp_error_t` result. -/
def HandlerMap : Type :=
  String → Session → Option (List Char) → Session × List Event × Int

/-- `ftp_session_process_command` (ftp_session.c:717-793).  Returns the
updated session, the event trace, and the C `int` result: `1` tells
`ftp_session_thread` to close the session, a negative value makes it break
out of its loop, `0` continues (ftp_session.c:229-237).  Command counting
and logging are not modelled. -/
def ftp_session_process_command (handlers : HandlerMap) (s : Session)
    (line : List Char) : Session × List Event × Int :=
  match ftp_parse_command_line line with
  | .error _ =>
    ((s, (ftp_session_send_reply s 500 none).fst, 0) : Session × List Event × Int)
  | .ok (cmd, args) =>
    match ftp_find_command cmd with
    | none => (s, (ftp_session_send_reply s 500 (some "Unknown command.")).fst, 0)
    | some entry =>
      if s.authenticated = false ∧ cmd ∉ preAuthVerbs then
        (s, (ftp_session_send_reply s 530 (some "Please login with USER and PASS.")).fst, 0)
      else
        let cmd_args : Option (List Char) := if args ≠ [] then some args else none
        if ftp_validate_command_args entry.snd cmd_args ≠ FTP_OK then
          (s, (ftp_session_send_reply s 501 none).fst, 0)
        else
          match handlers entry.fst s cmd_args with
          | (s1, evs, err) =>
            let fallback :=
              if err = FTP_ERR_NOT_FOUND then (ftp_session_send_reply s1 550 none).fst
              else if err = FTP_ERR_PERMISSION then
                (ftp_session_send_reply s1 550 (some "Permission denied.")).fst
              else []
            (s1, evs ++ fallback, if cmd = "QUIT".toList then 1 else 0)

/-- The session-thread termination decision on a `ftp_session_process_command`
result (ftp_session.c:229-237): quit on `1`, break on a negative value,
keep reading commands otherwise. -/
def session_thread_stops (result : Int) : Bool :=
  if result = 1 then true else if result < 0 then true else false

/-! ### Authentication handlers (src/src/ftp_commands.c:68-150) -/

/-- `cmd_USER` (ftp_commands.c:68-94).  `auth_attempts` is a saturating
`uint8_t`; a failed attempt below the limit sleeps `FTP_AUTH_DELAY` seconds
before its reply. -/
def cmd_USER (s : Session) (args : Option (List Char)) : Session × List Event × Int :=
  match args with
  | none => (s, [], FTP_ERR_INVALID_PARAM)
  | some name =>
    if name = "anonymous".toList ∨ name = "ftp".toList then
      let s1 := { s with user_ok := true }
      match ftp_session_send_reply s1 331 (some "Any password will work.") with
      | (evs, r) => (s1, evs, r)
    else
      let s1 := { s with user_ok := false,
                         auth_attempts :=
                           if s.auth_attempts < 255 then s.auth_attempts + 1
                           else s.auth_attempts }
      if FTP_MAX_AUTH_ATTEMPTS ≤ s1.auth_attempts then
        match ftp_session_send_reply s1 530 (some "Too many authentication attempts.") with
        | (evs, _) => (s1, evs, FTP_ERR_AUTH_FAILED)
      else
        match ftp_session_send_reply s1 530 (some "Only anonymous login supported.") with
        | (evs, r) => (s1, Event.sleepSec FTP_AUTH_DELAY :: evs, r)

/-- `cmd_PASS` (ftp_commands.c:99-124); the password argument is ignored. -/
def cmd_PASS (s : Session) (_args : Option (List Char)) : Session × List Event × Int :=
  if s.user_ok = false then
    let s1 := { s with auth_attempts :=
                  if s.auth_attempts < 255 then s.auth_attempts + 1
                  else s.auth_attempts }
    if FTP_MAX_AUTH_ATTEMPTS ≤ s1.auth_attempts then
      match ftp_session_send_reply s1 530 (some "Too many authentication attempts.") with
      | (evs, _) => (s1, evs, FTP_ERR_AUTH_FAILED)
    else
      match ftp_session_send_reply s1 530 (some "USER required.") with
      | (evs, r) => (s1, Event.sleepSec FTP_AUTH_DELAY :: evs, r)
  else
    let s1 := { s with authenticated := true, auth_attempts := 0 }
    match ftp_session_send_reply s1 230 none with
    | (evs, r) => (s1, evs, r)

/-- `cmd_QUIT` (ftp_commands.c:129-137). -/
def cmd_QUIT (s : Session) (_args : Option (List Char)) : Session × List Event × Int :=
  match ftp_session_send_reply s 221 none with
  | (evs, r) => (s, evs, r)

/-- `cmd_NOOP` (ftp_commands.c:142-150). -/
def cmd_NOOP (s : Session) (_args : Option (List Char)) : Session × List Event × Int :=
  match ftp_session_send_reply s 200 none with
  | (evs, r) => (s, evs, r)

/-- Handler assignment binding the authentication-related verbs to their
embedded handlers; the filesystem/network commands, which the claims using
this map never dispatch to, are left as no-ops. -/
def authHandlers : HandlerMap := fun verb =>
  if verb = "USER" then cmd_USER
  else if verb = "PASS" then cmd_PASS
  else if verb = "QUIT" then cmd_QUIT
  else if verb = "NOOP" then cmd_NOOP
  else fun s _ => (s, [], FTP_OK)

/-! ### PORT handler (src/src/ftp_commands.c:1073-1119)

The claim quantifies over PORT arguments that `sscanf` has parsed into six
numbers, so the embedding starts from the parsed values `h1..h4, p1, p2`
(the `%u,%u,...` format-mismatch branch, ftp_commands.c:1081-1084, is
outside the claim).  `pal_make_sockaddr` (pal_network.c:383-413) fails when
`port == 0`, and otherwise succeeds for octets in 0..255 because
`inet_pton` accepts every such dotted quad; the built `sockaddr_in` equals
the control peer address on `s_addr` exactly when the octet quadruples
coincide. -/

/-- `cmd_PORT` from the range check onward. -/
def cmd_PORT (s : Session) (h1 h2 h3 h4 p1 p2 : Nat) : Session × List Event × Int :=
  if 255 < h1 ∨ 255 < h2 ∨ 255 < h3 ∨ 255 < h4 ∨ 255 < p1 ∨ 255 < p2 then
    match ftp_session_send_reply s 501 (some "Invalid PORT values.") with
    | (evs, r) => (s, evs, r)
  else
    let port := (p1 <<< 8) ||| p2
    if port = 0 then
      match ftp_session_send_reply s 501 (some "Invalid address.") with
      | (evs, r) => (s, evs, r)
    else
      let s1 := { s with data_addr := ⟨(h1, h2, h3, h4), port⟩ }
      if s1.data_addr.ip ≠ s1.ctrl_addr.ip then
        let s2 := { s1 with data_mode := DataMode.modeNone }
        match ftp_session_send_reply s2 501 (some "Illegal PORT command.") with
        | (evs, r) => (s2, evs, r)
      else
        let s2 := { s1 with data_mode := DataMode.modeActive }
        match ftp_session_send_reply s2 200 (some "PORT command successful.") with
        | (evs, r) => (s2, evs, r)

/-! ### Rename handlers (src/src/ftp_commands.c:996-1064)

The platform filesystem is passed in as an oracle. -/

structure FsEnv where
  pathExists : List Char → Bool
  renameResult : List Char → List Char → Int

/-- `cmd_RNFR` (ftp_commands.c:996-1026). -/
def cmd_RNFR (env : FsEnv) (s : Session) (args : List Char) : Session × List Event × Int :=
  match ftp_path_resolve s.cwd args FTP_PATH_MAX with
  | .error _ =>
    match ftp_session_send_reply s 550 (some "Invalid path.") with
    | (evs, r) => (s, evs, r)
  | .ok resolved =>
    if env.pathExists resolved = false then
      match ftp_session_send_reply s 550 (some "File not found.") with
      | (evs, r) => (s, evs, r)
    else if FTP_PATH_MAX ≤ resolved.length then
      match ftp_session_send_reply s 550 (some "Path too long.") with
      | (evs, r) => (s, evs, r)
    else
      let s1 := { s with rename_from := resolved }
      match ftp_session_send_reply s1 350 (some "Ready for RNTO.") with
      | (evs, r) => (s1, evs, r)

/-- `cmd_RNTO` (ftp_commands.c:1031-1064). -/
def cmd_RNTO (env : FsEnv) (s : Session) (args : List Char) : Session × List Event × Int :=
  if s.rename_from = [] then
    match ftp_session_send_reply s 503 (some "RNFR required first.") with
    | (evs, r) => (s, evs, r)
  else
    match ftp_path_resolve s.cwd args FTP_PATH_MAX with
    | .error _ =>
      let s1 := { s with rename_from := [] }
      match ftp_session_send_reply s1 550 (some "Invalid path.") with
      | (evs, r) => (s1, evs, r)
    | .ok resolved =>
      let renameErr := env.renameResult s.rename_from resolved
      let s1 := { s with rename_from := [] }
      if renameErr ≠ FTP_OK then
        match ftp_session_send_reply s1 550 (some "Rename failed.") with
        | (evs, r) => (s1, evs, r)
      else
        match ftp_session_send_reply s1 250 (some "File renamed.") with
        | (evs, r) => (s1, evs, r)

/-! ### RETR handler (src/src/ftp_commands.c:464-603)

The VFS and the data connection are passed in as oracles: `openSize` is
`vfs_open` + `vfs_get_size` (`none` = open failure), `statMode` is
`vfs_stat` (`none` = stat failure, in which case the C code skips the
regular-file check), `dataConnOk`/`dataFd` model
`ftp_session_open_data_connection`, `bufferOk` models
`ftp_buffer_acquire`, and the result scripts drive the two transfer loops
(each script entry is one syscall return; an exhausted script behaves as
the loop's `break`). -/

def S_IFMT : Nat := 61440

def S_IFREG : Nat := 32768

/-- One `pal_sendfile` outcome inside the sendfile loop
(ftp_commands.c:539-554): progress of `n` bytes, `EINTR`, or a
`sent <= 0` result that breaks the loop. -/
inductive SfRes
  | sent (n : Nat)
  | intr
  | stop
deriving DecidableEq

/-- One `vfs_read` outcome inside the buffered loop
(ftp_commands.c:563-582): a chunk of bytes (empty = EOF), `EINTR`, or a
failing read. -/
inductive ReadRes
  | chunkBytes (bytes : List Nat)
  | intrRead
  | failRead
deriving DecidableEq

structure RetrEnv where
  openSize : List Char → Option Nat
  statMode : List Char → Option Nat
  sendfileCap : Bool
  dataConnOk : Bool
  dataFd : Int
  bufferOk : Bool
  sfResults : List SfRes
  reads : List ReadRes

/-- The sendfile loop of `cmd_RETR` (ftp_commands.c:538-555); returns the
final `remaining` and the transfer events.  `sent 0` models a
non-`EINTR` failure (`sent <= 0` breaks). -/
def retrSendfileLoop : List SfRes → Nat → Nat × List Event
  | _, 0 => (0, [])
  | [], Nat.succ n => (Nat.succ n, [])
  | r :: rs, Nat.succ n =>
    match r with
    | SfRes.sent m =>
      if m = 0 then (Nat.succ n, [])
      else
        match retrSendfileLoop rs (Nat.succ n - m) with
        | (rem, evs) => (rem, Event.sendfileBytes m :: evs)
    | SfRes.intr => retrSendfileLoop rs (Nat.succ n)
    | SfRes.stop => (Nat.succ n, [])

/-- The buffered read-and-send loop of `cmd_RETR` (ftp_commands.c:562-583).
Each successful read of `bytes` is sent in full with
`ftp_session_send_data` (whose `pal_send_all` transmits the whole buffer),
recorded as an `Event.sendData` — unencrypted, as in the source. -/
def retrBufferedLoop : List ReadRes → Nat → Nat × List Event
  | _, 0 => (0, [])
  | [], Nat.succ n => (Nat.succ n, [])
  | r :: rs, Nat.succ n =>
    match r with
    | ReadRes.chunkBytes bytes =>
      if bytes = [] then (Nat.succ n, [])
      else
        match retrBufferedLoop rs (Nat.succ n - bytes.length) with
        | (rem, evs) => (rem, Event.sendData bytes :: evs)
    | ReadRes.intrRead => retrBufferedLoop rs (Nat.succ n)
    | ReadRes.failRead => (Nat.succ n, [])

/-- `cmd_RETR` (ftp_commands.c:464-603).  `use_sendfile` is
`(caps & VFS_CAP_SENDFILE) && FTP_TRANSFER_RATE_LIMIT_BPS == 0` — the rate
limit is 0 at the default configuration — cleared when crypto is active
(ftp_commands.c:530-536). -/
def cmd_RETR (env : RetrEnv) (s : Session) (args : List Char) : Session × List Event × Int :=
  match ftp_path_resolve s.cwd args FTP_PATH_MAX with
  | .error _ =>
    match ftp_session_send_reply s 550 (some "Invalid path.") with
    | (evs, r) => (s, evs, r)
  | .ok resolved =>
    match env.openSize resolved with
    | none =>
      match ftp_session_send_reply s 550 (some "Cannot open file.") with
      | (evs, r) => (s, evs, r)
    | some file_size =>
      let regular : Bool := match env.statMode resolved with
        | some mode => decide (mode &&& S_IFMT = S_IFREG)
        | none => true
      if regular = false then
        let s1 := { s with restart_offset := 0 }
        match ftp_session_send_reply s1 550 (some "Not a regular file.") with
        | (evs, r) => (s1, evs, r)
      else
        let offset := s.restart_offset
        if offset < 0 ∨ (file_size : Int) < offset then
          let s1 := { s with restart_offset := 0 }
          match ftp_session_send_reply s1 550 (some "Invalid offset.") with
          | (evs, r) => (s1, evs, r)
        else
          match ftp_session_send_reply s 150 none with
          | (ev150, _) =>
            if env.dataConnOk = false then
              match ftp_session_send_reply s 425 none with
              | (evs, r) => (s, ev150 ++ evs, r)
            else
              let s1 := { s with data_fd := env.dataFd }
              let remaining := file_size - offset.toNat
              let use_sendfile : Bool := env.sendfileCap && !s1.crypto.active
              match
                (if use_sendfile then retrSendfileLoop env.sfResults remaining
                 else if env.bufferOk = false then (1, [])
                 else retrBufferedLoop env.reads remaining :
                  Nat × List Event) with
              | (remFinal, evT) =>
                let s2 := ftp_session_close_data_connection s1
                let s3 := { s2 with restart_offset := 0 }
                if remFinal = 0 then
                  match ftp_session_send_reply s3 226 none with
                  | (evs, r) => (s3, ev150 ++ evT ++ evs, r)
                else
                  match ftp_session_send_reply s3 426 (some "Transfer failed.") with
                  | (evs, r) => (s3, ev150 ++ evT ++ evs, r)

/-! ### Concrete inputs used by the theorems below -/

/-- A freshly connected session: the state `ftp_session_init`
(ftp_session.c:57-153) produces for a client at 10.0.0.2:12345 with server
root `/srv/root` (already canonical). -/
def initialSession : Session :=
  { ctrl_fd := 4
    ctrl_addr := ⟨(10, 0, 0, 2), 12345⟩
    data_fd := -1
    pasv_fd := -1
    data_addr := ⟨(0, 0, 0, 0), 0⟩
    data_mode := DataMode.modeNone
    restart_offset := 0
    root_path := "/srv/root".toList
    cwd := "/srv/root".toList
    rename_from := []
    auth_attempts := 0
    authenticated := false
    user_ok := false
    crypto := inactiveCrypto }

/-- A logged-in session whose AUTH XCRYPT handshake has completed with the
all-zero key and nonce, and with an open data connection. -/
def cryptoSession : Session :=
  { initialSession with
    authenticated := true
    data_fd := 7
    crypto := ftp_crypto_init (List.replicate 32 0) (List.replicate 12 0) }

/-- A logged-in session with a pending REST offset of 7. -/
def restSession : Session :=
  { initialSession with authenticated := true, restart_offset := 7 }

/-- A logged-in session with a pending rename source from an earlier
successful RNFR. -/
def renameSession : Session :=
  { initialSession with authenticated := true, rename_from := "/srv/root/a".toList }

/-- A filesystem oracle on which every path lookup fails. -/
def emptyFs : FsEnv :=
  { pathExists := fun _ => false
    renameResult := fun _ _ => FTP_ERR_NOT_FOUND }

/-- A RETR environment in which every oracle fails; the claim-C4 failing
input never consults it past `openSize`. -/
def failingRetrEnv : RetrEnv :=
  { openSize := fun _ => none
    statMode := fun _ => none
    sendfileCap := false
    dataConnOk := false
    dataFd := 7
    bufferOk := false
    sfResults := []
    reads := [] }

/-- An argument path of `MAX_PATH_COMPONENTS + 1` components
(`/a/a/…/a`) — `ftp_path_resolve` rejects it with
`FTP_ERR_PATH_TOO_LONG`. -/
def overlongArg : List Char :=
  (List.replicate (MAX_PATH_COMPONENTS + 1) ['/', 'a']).flatten

/-- The bytes of `NOOP\r\n`, a plaintext a client would encrypt after the
AUTH XCRYPT handshake (spec §8, S7). -/
def noopBytes : List Nat :=
  [78, 79, 79, 80, 13, 10]

/-- A path component `ftp_path_normalize` pushes on its stack: nonempty, no
separator, not `.` and not `..`. -/
def goodComp (c : List Char) : Prop :=
  c ≠ [] ∧ '/' ∉ c ∧ c ≠ ['.'] ∧ c ≠ ['.', '.']

/-- The string `"/c₁/c₂/…/cₙ"` that `buildOutput` produces from a component
list. -/
def glueComps (comps : List (List Char)) : List Char :=
  (comps.map fun c => '/' :: c).flatten

/-! ## Theorems -/

/-- Claim C1 (code bug): `ftp_path_resolve` is supposed to return only
paths within the session root, but it never consults
`ftp_path_is_within_root`: with root = cwd = `/srv/root`, the user path
`..` resolves successfully to `/srv`, which is outside the root.  The
repository's own test (src/tests/test_path_security.c:60-63) expects
`FTP_ERR_PATH_INVALID` here. -/
theorem resolve_returns_path_outside_root :
    ftp_path_resolve "/srv/root".toList "..".toList FTP_PATH_MAX = .ok ("/srv".toList) ∧
    ftp_path_is_within_root "/srv".toList "/srv/root".toList = false :=
  ⟨rfl, rfl⟩

/-- Claim C2 (code bug): in a session whose AUTH XCRYPT handshake has
completed (`crypto.active`), the byte sequences handed to the socket send
functions by `ftp_session_send_data` and `ftp_session_send_reply` are the
raw plaintext — no XOR with the ChaCha20 keystream is ever applied
(`ftp_crypto_xor` is called from no I/O path in the program) — although
XORing with the keystream would change the bytes. -/
theorem send_functions_emit_plaintext_with_crypto_active :
    cryptoSession.crypto.active = true ∧
    (ftp_session_send_data cryptoSession noopBytes).fst = [Event.sendData noopBytes] ∧
    (ftp_session_send_reply cryptoSession 200 none).fst =
      [Event.sendCtrl (("200 Command okay.\x0d\x0a").toList.map Char.toNat)] ∧
    (ftp_crypto_xor cryptoSession.crypto noopBytes).fst ≠ noopBytes := by
  refine ⟨rfl, rfl, rfl, ?_⟩
  decide

/-- Claim C3 (code bug): three `USER root` attempts on a fresh session.
The first two failed attempts sleep `FTP_AUTH_DELAY = 2` seconds and reply
530 `Only anonymous login supported.`; the third replies 530
`Too many authentication attempts.` — but `ftp_session_process_command`
then returns `0`, so `ftp_session_thread` keeps the session alive instead
of terminating it. -/
theorem user_lockout_replies_530_but_session_continues :
    (ftp_session_process_command authHandlers initialSession ("USER root".toList)).snd.fst =
      [Event.sleepSec FTP_AUTH_DELAY,
       Event.sendCtrl (("530 Only anonymous login supported.\x0d\x0a").toList.map Char.toNat)] ∧
    (ftp_session_process_command authHandlers
        (ftp_session_process_command authHandlers initialSession
          ("USER root".toList)).fst ("USER root".toList)).snd.fst =
      [Event.sleepSec FTP_AUTH_DELAY,
       Event.sendCtrl (("530 Only anonymous login supported.\x0d\x0a").toList.map Char.toNat)] ∧
    (ftp_session_process_command authHandlers
        (ftp_session_process_command authHandlers
          (ftp_session_process_command authHandlers initialSession
            ("USER root".toList)).fst ("USER root".toList)).fst
        ("USER root".toList)).snd.fst =
      [Event.sendCtrl (("530 Too many authentication attempts.\x0d\x0a").toList.map Char.toNat)] ∧
    (ftp_session_process_command authHandlers
        (ftp_session_process_command authHandlers
          (ftp_session_process_command authHandlers initialSession
            ("USER root".toList)).fst ("USER root".toList)).fst
        ("USER root".toList)).snd.snd = 0 ∧
    session_thread_stops
      (ftp_session_process_command authHandlers
        (ftp_session_process_command authHandlers
          (ftp_session_process_command authHandlers initialSession
            ("USER root".toList)).fst ("USER root".toList)).fst
        ("USER root".toList)).snd.snd = false := by
  refine ⟨rfl, rfl, rfl, rfl, rfl⟩

/-- Claim C4 (code bug): `cmd_RETR` returns with `restart_offset` still
nonzero when path resolution fails (it also skips the reset on the
`Cannot open file.` and 425 paths), although the spec requires the offset
to be cleared on every RETR exit; `cmd_STOR`/`cmd_APPE` do clear it on
every path. -/
theorem cmd_RETR_invalid_path_keeps_restart_offset :
    (cmd_RETR failingRetrEnv restSession overlongArg).fst.restart_offset ≠ 0 ∧
    (cmd_RETR failingRetrEnv restSession overlongArg).fst.restart_offset = 7 ∧
    firstReplyCode (cmd_RETR failingRetrEnv restSession overlongArg).snd.fst = some 550 := by
  refine ⟨by decide, rfl, rfl⟩

/-- Claim C6 (confirmed): on an unauthenticated session, any recognized
verb outside {USER, PASS, QUIT, NOOP, FEAT, SYST} makes the dispatcher
reply 530 `Please login with USER and PASS.` and return with the session
unchanged — for every possible handler assignment, so no handler is ever
invoked. -/
theorem dispatcher_gates_unauthenticated_verbs (handlers : HandlerMap) (s : Session)
    (line cmd args : List Char) (entry : String × ArgsReq)
    (hauth : s.authenticated = false)
    (hparse : ftp_parse_command_line line = .ok (cmd, args))
    (hfind : ftp_find_command cmd = some entry)
    (hnot : cmd ∉ preAuthVerbs) :
    ftp_session_process_command handlers s line =
      (s, (ftp_session_send_reply s 530 (some "Please login with USER and PASS.")).fst, 0) := by
  unfold ftp_session_process_command
  rw [hparse]
  dsimp only
  rw [hfind]
  dsimp only
  rw [if_pos ⟨hauth, hnot⟩]

/-- Witness for C6: a fresh session sending `PWD` (spec §8, S5). -/
theorem dispatcher_gates_unauthenticated_verbs_witness :
    ftp_session_process_command authHandlers initialSession ("PWD".toList) =
      (initialSession,
       (ftp_session_send_reply initialSession 530
         (some "Please login with USER and PASS.")).fst, 0) :=
  dispatcher_gates_unauthenticated_verbs authHandlers initialSession
    ("PWD".toList) ("PWD".toList) [] ("PWD", ArgsReq.argNone)
    rfl rfl rfl (by decide)

/-- Counterexample to claim C5 as stated: a failing RNFR (file not found)
leaves a previously stored `rename_from` in place instead of clearing
it. -/
theorem cmd_RNFR_failure_keeps_rename_from :
    firstReplyCode (cmd_RNFR emptyFs renameSession ("missing".toList)).snd.fst = some 550 ∧
    (cmd_RNFR emptyFs renameSession ("missing".toList)).fst.rename_from ≠ [] := by
  refine ⟨rfl, by decide⟩

/-- Claim C5 (corrected): for every session with a valid control socket,
`rename_from` is empty after every `cmd_RNTO` execution; a `cmd_RNFR`
execution that does not reply 350 leaves `rename_from` unchanged (it does
not clear it). -/
theorem rnto_clears_and_rnfr_failure_preserves_rename_from
    (env : FsEnv) (s : Session) (args : List Char) (hfd : 0 ≤ s.ctrl_fd) :
    (cmd_RNTO env s args).fst.rename_from = [] ∧
    (firstReplyCode (cmd_RNFR env s args).snd.fst ≠ some 350 →
      (cmd_RNFR env s args).fst.rename_from = s.rename_from) := by
  constructor
  · by_cases hempty : s.rename_from = []
    · have hcmd : (cmd_RNTO env s args).fst = s := by
        unfold cmd_RNTO
        rw [if_pos hempty]
      rw [hcmd]
      exact hempty
    · rcases hres : ftp_path_resolve s.cwd args FTP_PATH_MAX with e | resolved
      · have hcmd : (cmd_RNTO env s args).fst = { s with rename_from := [] } := by
          unfold cmd_RNTO
          rw [if_neg hempty, hres]
        rw [hcmd]
      · by_cases hrn : env.renameResult s.rename_from resolved ≠ FTP_OK
        · have hcmd : (cmd_RNTO env s args).fst = { s with rename_from := [] } := by
            unfold cmd_RNTO
            rw [if_neg hempty, hres]
            dsimp only
            rw [if_pos hrn]
          rw [hcmd]
        · have hcmd : (cmd_RNTO env s args).fst = { s with rename_from := [] } := by
            unfold cmd_RNTO
            rw [if_neg hempty, hres]
            dsimp only
            rw [if_neg hrn]
          rw [hcmd]
  · intro hne
    rcases hres : ftp_path_resolve s.cwd args FTP_PATH_MAX with e | resolved
    · have hcmd : (cmd_RNFR env s args).fst = s := by
        unfold cmd_RNFR
        rw [hres]
      rw [hcmd]
    · by_cases hex : env.pathExists resolved = false
      · have hcmd : (cmd_RNFR env s args).fst = s := by
          unfold cmd_RNFR
          rw [hres]
          dsimp only
          rw [if_pos hex]
        rw [hcmd]
      · by_cases hlen : FTP_PATH_MAX ≤ resolved.length
        · have hcmd : (cmd_RNFR env s args).fst = s := by
            unfold cmd_RNFR
            rw [hres]
            dsimp only
            rw [if_neg hex, if_pos hlen]
          rw [hcmd]
        · exfalso
          apply hne
          have hcmd : (cmd_RNFR env s args).snd.fst =
              (ftp_session_send_reply { s with rename_from := resolved } 350
                (some "Ready for RNTO.")).fst := by
            unfold cmd_RNFR
            rw [hres]
            dsimp only
            rw [if_neg hex, if_neg hlen]
          rw [hcmd]
          unfold ftp_session_send_reply
          rw [if_neg (not_lt.mpr hfd)]
          rfl

/-- Witness for C5: the RNTO clause at a concrete input, and the
RNFR-failure clause at the concrete counterexample input. -/
theorem rnto_rnfr_rename_from_witness :
    (cmd_RNTO emptyFs renameSession ("b".toList)).fst.rename_from = [] ∧
    (cmd_RNFR emptyFs renameSession ("missing".toList)).fst.rename_from =
      renameSession.rename_from :=
  ⟨(rnto_clears_and_rnfr_failure_preserves_rename_from emptyFs renameSession
      ("b".toList) (by decide)).1,
   (rnto_clears_and_rnfr_failure_preserves_rename_from emptyFs renameSession
      ("missing".toList) (by decide)).2 (by decide)⟩

/-- `(p1 << 8) | p2` is `p1 * 256 + p2` when `p2` is a byte. -/
theorem shiftLeft_eight_or_eq (p1 p2 : Nat) (h : p2 < 256) :
    (p1 <<< 8) ||| p2 = p1 * 256 + p2 := by
  apply Nat.eq_of_testBit_eq
  intro j
  have h256 : (256 : Nat) = 2 ^ 8 := by norm_num
  rw [Nat.testBit_or, Nat.testBit_shiftLeft]
  rw [show p1 * 256 + p2 = 2 ^ 8 * p1 + p2 by rw [h256]; ring]
  rw [Nat.testBit_mul_pow_two_add p1 (by simpa [h256] using h) j]
  by_cases hj : j < 8
  · have hge : ¬(8 ≤ j) := by omega
    simp [hj, hge]
  · have h8 : 8 ≤ j := by omega
    have hb : p2.testBit j = false :=
      Nat.testBit_lt_two_pow (lt_of_lt_of_le h (by
        rw [h256]
        exact Nat.pow_le_pow_right (by norm_num) h8))
    simp [hj, h8, hb]

/-- Counterexample to claim C7 as stated: with octets equal to the peer IP
but `p1 = p2 = 0`, `pal_make_sockaddr` rejects port 0, so the handler
replies 501 instead of activating the data connection with a 200 reply. -/
theorem cmd_PORT_port_zero_counterexample :
    ¬ ((cmd_PORT initialSession 10 0 0 2 0 0).fst.data_mode = DataMode.modeActive ∧
        firstReplyCode (cmd_PORT initialSession 10 0 0 2 0 0).snd.fst = some 200) := by
  decide

/-- Claim C7 (corrected): for octets in 0..255 with a nonzero port, a PORT
whose IP differs from the control peer's replies 501 and leaves
`data_mode = None`; one whose IP matches memorizes the endpoint with port
`p1 * 256 + p2`, sets `data_mode = Active` and replies 200.  (When
`p1 = p2 = 0`, `pal_make_sockaddr` fails and the handler replies 501
`Invalid address.` without touching `data_mode`.) -/
theorem cmd_PORT_peer_ip_check (s : Session) (h1 h2 h3 h4 p1 p2 : Nat)
    (hfd : 0 ≤ s.ctrl_fd)
    (hh1 : h1 ≤ 255) (hh2 : h2 ≤ 255) (hh3 : h3 ≤ 255) (hh4 : h4 ≤ 255)
    (hp1 : p1 ≤ 255) (hp2 : p2 ≤ 255) (hport : p1 * 256 + p2 ≠ 0) :
    ((h1, h2, h3, h4) ≠ s.ctrl_addr.ip →
      (cmd_PORT s h1 h2 h3 h4 p1 p2).fst.data_mode = DataMode.modeNone ∧
      firstReplyCode (cmd_PORT s h1 h2 h3 h4 p1 p2).snd.fst = some 501) ∧
    ((h1, h2, h3, h4) = s.ctrl_addr.ip →
      (cmd_PORT s h1 h2 h3 h4 p1 p2).fst.data_mode = DataMode.modeActive ∧
      (cmd_PORT s h1 h2 h3 h4 p1 p2).fst.data_addr = ⟨(h1, h2, h3, h4), p1 * 256 + p2⟩ ∧
      firstReplyCode (cmd_PORT s h1 h2 h3 h4 p1 p2).snd.fst = some 200) := by
  have hrange : ¬(255 < h1 ∨ 255 < h2 ∨ 255 < h3 ∨ 255 < h4 ∨ 255 < p1 ∨ 255 < p2) := by
    omega
  have hlor : (p1 <<< 8) ||| p2 = p1 * 256 + p2 :=
    shiftLeft_eight_or_eq p1 p2 (by omega)
  constructor
  · intro hip
    have hcmd : cmd_PORT s h1 h2 h3 h4 p1 p2 =
        ({ s with data_addr := ⟨(h1, h2, h3, h4), p1 * 256 + p2⟩,
                  data_mode := DataMode.modeNone },
         (ftp_session_send_reply
           { s with data_addr := ⟨(h1, h2, h3, h4), p1 * 256 + p2⟩,
                    data_mode := DataMode.modeNone } 501
           (some "Illegal PORT command.")).fst,
         (ftp_session_send_reply
           { s with data_addr := ⟨(h1, h2, h3, h4), p1 * 256 + p2⟩,
                    data_mode := DataMode.modeNone } 501
           (some "Illegal PORT command.")).snd) := by
      unfold cmd_PORT
      rw [if_neg hrange]
      dsimp only
      rw [hlor, if_neg hport, if_pos hip]
    rw [hcmd]
    refine ⟨rfl, ?_⟩
    unfold ftp_session_send_reply
    rw [if_neg (not_lt.mpr hfd)]
    rfl
  · intro hip
    have hcmd : cmd_PORT s h1 h2 h3 h4 p1 p2 =
        ({ s with data_addr := ⟨(h1, h2, h3, h4), p1 * 256 + p2⟩,
                  data_mode := DataMode.modeActive },
         (ftp_session_send_reply
           { s with data_addr := ⟨(h1, h2, h3, h4), p1 * 256 + p2⟩,
                    data_mode := DataMode.modeActive } 200
           (some "PORT command successful.")).fst,
         (ftp_session_send_reply
           { s with data_addr := ⟨(h1, h2, h3, h4), p1 * 256 + p2⟩,
                    data_mode := DataMode.modeActive } 200
           (some "PORT command successful.")).snd) := by
      unfold cmd_PORT
      rw [if_neg hrange]
      dsimp only
      rw [hlor, if_neg hport, if_neg (by simpa using hip)]
    rw [hcmd]
    refine ⟨rfl, rfl, ?_⟩
    unfold ftp_session_send_reply
    rw [if_neg (not_lt.mpr hfd)]
    rfl

/-- Witness for C7: the spec's S3 scenario — peer 10.0.0.2 sending
`PORT 127,0,0,1,0,21` is refused with 501 and `data_mode = None`. -/
theorem cmd_PORT_peer_ip_check_witness :
    (cmd_PORT initialSession 127 0 0 1 0 21).fst.data_mode = DataMode.modeNone ∧
    firstReplyCode (cmd_PORT initialSession 127 0 0 1 0 21).snd.fst = some 501 :=
  (cmd_PORT_peer_ip_check initialSession 127 0 0 1 0 21 (by decide) (by decide)
      (by decide) (by decide) (by decide) (by decide) (by decide) (by decide)).1
    (by decide)

/-- Counterexample to claim C8 as stated: the claimed equivalence is
quantified over every pair of strings, but `ftp_path_is_within_root`
returns false whenever either argument is not absolute — here
`path = root = "a"`, where the claim (`path == root`) demands true. -/
theorem is_within_root_claim_counterexample :
    ¬ (ftp_path_is_within_root ['a'] ['a'] = true ↔ withinRootSpec ['a'] ['a']) := by
  decide

/-- Claim C8 (corrected): `ftp_path_is_within_root path root` is true iff
both arguments start with `'/'` and either `root` is `"/"` (matching every
absolute path), or `path = root`, or `root` is a prefix of `path` whose
next character is `'/'`.  In particular, for absolute `root ≠ "/"` and
`path = root ++ suffix` with a nonempty `suffix` not starting with `'/'`,
the result is false. -/
theorem is_within_root_characterization (path root : List Char) :
    ftp_path_is_within_root path root = true ↔
      (path.head? = some '/' ∧ root.head? = some '/' ∧ withinRootSpec path root) := by
  unfold ftp_path_is_within_root withinRootSpec
  by_cases habs : path.head? = some '/' ∧ root.head? = some '/'
  · rw [if_neg (not_not_intro habs)]
    by_cases hroot1 : root.length = 1 ∧ root.head? = some '/'
    · rw [if_pos hroot1]
      constructor
      · intro _
        obtain ⟨a, ha⟩ := List.length_eq_one.mp hroot1.1
        have haslash : a = '/' := by
          have h2 := hroot1.2
          rw [ha] at h2
          simpa using h2
        exact ⟨habs.1, habs.2, Or.inl (by rw [ha, haslash])⟩
      · intro _
        rfl
    · rw [if_neg hroot1]
      have hrootSlash : root ≠ ['/'] := by
        intro hr
        exact hroot1 (by rw [hr]; exact ⟨rfl, rfl⟩)
      by_cases hlen : path.length < root.length
      · rw [if_pos hlen]
        constructor
        · intro h
          exact absurd h (by simp)
        · rintro ⟨-, -, hspec⟩
          exfalso
          rcases hspec with hr | hpr | ⟨hpre, -⟩
          · exact hrootSlash hr
          · rw [hpr] at hlen
            exact absurd hlen (lt_irrefl _)
          · exact absurd hlen (not_lt.mpr hpre.length_le)
      · rw [if_neg hlen]
        by_cases htake : path.take root.length = root
        · rw [if_neg (not_not_intro htake)]
          have hpre : root <+: path := List.prefix_iff_eq_take.mpr htake.symm
          by_cases hslash : root.length < path.length ∧ ¬(path.get? root.length = some '/')
          · rw [if_pos hslash]
            constructor
            · intro h
              exact absurd h (by simp)
            · rintro ⟨-, -, hspec⟩
              exfalso
              rcases hspec with hr | hpr | ⟨-, hget⟩
              · exact hrootSlash hr
              · rw [hpr] at hslash
                exact absurd hslash.1 (lt_irrefl _)
              · exact hslash.2 hget
          · rw [if_neg hslash]
            constructor
            · intro _
              refine ⟨habs.1, habs.2, ?_⟩
              rcases not_and_or.mp hslash with hnlt | hget
              · have hlenEq : root.length = path.length := by
                  have h1 := hpre.length_le
                  omega
                exact Or.inr (Or.inl (hpre.eq_of_length hlenEq).symm)
              · exact Or.inr (Or.inr ⟨hpre, not_not.mp hget⟩)
            · intro _
              rfl
        · rw [if_pos htake]
          constructor
          · intro h
            exact absurd h (by simp)
          · rintro ⟨-, -, hspec⟩
            exfalso
            rcases hspec with hr | hpr | ⟨hpre, -⟩
            · exact hrootSlash hr
            · apply htake
              rw [hpr]
              exact List.take_length root
            · exact htake (List.prefix_iff_eq_take.mp hpre).symm
  · rw [if_pos habs]
    constructor
    · intro h
      exact absurd h (by simp)
    · rintro ⟨h1, h2, -⟩
      exact (habs ⟨h1, h2⟩).elim

/-- The context evolution of `ftp_crypto_xor` does not depend on the data
bytes, and XOR with the same keystream byte twice is the identity: applying
the transform twice from equal starting contexts restores the input. -/
theorem crypto_xor_xor (B : List Nat) :
    ∀ ctx : CryptoCtx, (ftp_crypto_xor ctx (ftp_crypto_xor ctx B).fst).fst = B := by
  induction B with
  | nil => intro ctx; rfl
  | cons b rest ih =>
    intro ctx
    simp only [ftp_crypto_xor]
    rw [Nat.xor_cancel_right]
    rw [ih]

/-- Claim C9 (confirmed): for every byte sequence and every (key, nonce)
pair, XORing twice with freshly initialized contexts over the same
parameters restores the original sequence — the keystream is a function of
(key, nonce) alone and XOR is an involution. -/
theorem ftp_crypto_xor_involution (key nonce B : List Nat) :
    (ftp_crypto_xor (ftp_crypto_init key nonce)
      (ftp_crypto_xor (ftp_crypto_init key nonce) B).fst).fst = B :=
  crypto_xor_xor B (ftp_crypto_init key nonce)

/-- Every token the strtok-style tokenizer produces is nonempty and free of
separators. -/
theorem tokensAux_good (l : List Char) :
    ∀ cur, (∀ x ∈ cur, x ≠ '/') → ∀ t ∈ tokensAux l cur, t ≠ [] ∧ '/' ∉ t := by
  induction l with
  | nil =>
    intro cur hcur t ht
    simp only [tokensAux] at ht
    split at ht
    · simp at ht
    · next hne =>
      simp only [List.mem_singleton] at ht
      subst ht
      refine ⟨by simpa using hne, ?_⟩
      intro hmem
      exact hcur '/' (List.mem_reverse.mp hmem) rfl
  | cons c cs ih =>
    intro cur hcur t ht
    simp only [tokensAux] at ht
    by_cases hc : c = '/'
    · rw [if_pos hc] at ht
      by_cases hcur0 : cur = []
      · rw [if_pos hcur0] at ht
        exact ih [] (by simp) t ht
      · rw [if_neg hcur0] at ht
        rcases List.mem_cons.mp ht with h | h
        · subst h
          refine ⟨by simpa using hcur0, ?_⟩
          intro hmem
          exact hcur '/' (List.mem_reverse.mp hmem) rfl
        · exact ih [] (by simp) t h
    · rw [if_neg hc] at ht
      refine ih (c :: cur) ?_ t ht
      intro x hx
      rcases List.mem_cons.mp hx with h | h
      · rw [h]; exact hc
      · exact hcur x h

theorem tokens_good (l : List Char) : ∀ t ∈ tokens l, t ≠ [] ∧ '/' ∉ t :=
  tokensAux_good l [] (by simp)

/-- A successful `processComponents` run over separator-free nonempty
tokens leaves only good components on the stack, and never more than
`MAX_PATH_COMPONENTS` of them. -/
theorem processComponents_good (ts : List (List Char)) :
    ∀ stack res, (∀ t ∈ ts, t ≠ [] ∧ '/' ∉ t) → (∀ c ∈ stack, goodComp c) →
      stack.length ≤ MAX_PATH_COMPONENTS →
      processComponents ts stack = some res →
      (∀ c ∈ res, goodComp c) ∧ res.length ≤ MAX_PATH_COMPONENTS := by
  induction ts with
  | nil =>
    intro stack res _ hstack hlen h
    simp only [processComponents, Option.some.injEq] at h
    subst h
    exact ⟨hstack, hlen⟩
  | cons t ts ih =>
    intro stack res hts hstack hlen h
    have htail : ∀ u ∈ ts, u ≠ [] ∧ '/' ∉ u := fun u hu => hts u (List.mem_cons_of_mem _ hu)
    have hhead := hts t (List.mem_cons_self t ts)
    simp only [processComponents] at h
    by_cases h1 : t = ['.']
    · rw [if_pos h1] at h
      exact ih stack res htail hstack hlen h
    · rw [if_neg h1] at h
      by_cases h2 : t = ['.', '.']
      · rw [if_pos h2] at h
        refine ih _ res htail ?_ ?_ h
        · intro c hc
          exact hstack c (List.dropLast_subset _ hc)
        · calc stack.dropLast.length ≤ stack.length := by
                rw [List.length_dropLast]
                omega
            _ ≤ MAX_PATH_COMPONENTS := hlen
      · rw [if_neg h2] at h
        have hpos : 0 < t.length := List.length_pos.mpr hhead.1
        rw [if_pos hpos] at h
        by_cases h3 : MAX_PATH_COMPONENTS ≤ stack.length
        · rw [if_pos h3] at h
          exact absurd h (by simp)
        · rw [if_neg h3] at h
          refine ih _ res htail ?_ ?_ h
          · intro c hc
            rcases List.mem_append.mp hc with h' | h'
            · exact hstack c h'
            · rw [List.mem_singleton.mp h']
              exact ⟨hhead.1, hhead.2, h1, h2⟩
          · rw [List.length_append, List.length_singleton]
            omega

/-- Processing a list of good components onto a small enough stack just
appends them: `.`/`..` never fire and the depth check never trips. -/
theorem processComponents_id (ts : List (List Char)) :
    ∀ stack, (∀ t ∈ ts, goodComp t) → stack.length + ts.length ≤ MAX_PATH_COMPONENTS →
      processComponents ts stack = some (stack ++ ts) := by
  induction ts with
  | nil =>
    intro stack _ _
    simp [processComponents]
  | cons t ts ih =>
    intro stack hts hlen
    have hg := hts t (List.mem_cons_self t ts)
    simp only [processComponents]
    rw [if_neg hg.2.2.1, if_neg hg.2.2.2, if_pos (List.length_pos.mpr hg.1)]
    rw [if_neg (by simp at hlen; omega)]
    rw [ih (stack ++ [t]) (fun u hu => hts u (List.mem_cons_of_mem _ hu))
      (by simp at hlen ⊢; omega)]
    simp

/-- What a successful `buildOutput` run produces: the glued component
string, whose length (plus the leading offset and the terminating NUL)
fits the buffer. -/
theorem buildOutput_eq (comps : List (List Char)) :
    ∀ offset size out, buildOutput comps offset size = some out →
      out = glueComps comps ∧ (comps ≠ [] → offset + out.length + 1 ≤ size) := by
  induction comps with
  | nil =>
    intro offset size out h
    simp only [buildOutput, Option.some.injEq] at h
    subst h
    exact ⟨rfl, fun hne => absurd rfl hne⟩
  | cons c cs ih =>
    intro offset size out h
    simp only [buildOutput] at h
    split at h
    · exact absurd h (by simp)
    · next hsz =>
      cases hrest : buildOutput cs (offset + 1 + c.length) size with
      | none =>
        rw [hrest] at h
        exact absurd h (by simp)
      | some rest =>
        rw [hrest] at h
        simp only [Option.some.injEq] at h
        subst h
        obtain ⟨heq, hb⟩ := ih _ _ _ hrest
        constructor
        · rw [heq]
          simp [glueComps]
        · intro _
          rcases eq_or_ne cs [] with hcs | hcs
          · subst hcs
            rw [heq]
            simp only [glueComps, List.map_nil, List.flatten_nil, List.append_nil]
            simp only [List.length_cons]
            omega
          · have hlenrest := hb hcs
            simp only [List.length_append, List.length_cons]
            omega

/-- Scanning a separator-free segment accumulates it (reversed) into the
current token. -/
theorem tokensAux_across (c : List Char) (ys : List Char) :
    ∀ cur, (∀ x ∈ c, x ≠ '/') → tokensAux (c ++ ys) cur = tokensAux ys (c.reverse ++ cur) := by
  induction c with
  | nil =>
    intro cur _
    simp
  | cons x c ih =>
    intro cur hx
    have hx0 : x ≠ '/' := hx x (List.mem_cons_self x c)
    simp only [List.cons_append, tokensAux, if_neg hx0]
    show tokensAux (c ++ ys) (x :: cur) = tokensAux ys ((x :: c).reverse ++ cur)
    rw [ih (x :: cur) fun y hy => hx y (List.mem_cons_of_mem _ hy)]
    congr 1
    simp

/-- Tokenizing a glued component string yields back the components (plus
the pending token, if any). -/
theorem tokensAux_glue (comps : List (List Char)) :
    ∀ cur, (∀ c ∈ comps, c ≠ [] ∧ '/' ∉ c) →
      tokensAux (glueComps comps) cur =
        (if cur = [] then [] else [cur.reverse]) ++ comps := by
  induction comps with
  | nil =>
    intro cur _
    simp only [glueComps, List.map_nil, List.flatten_nil, tokensAux]
    split
    · simp
    · simp
  | cons c cs ih =>
    intro cur hcomps
    have hc := hcomps c (List.mem_cons_self c cs)
    have hglue : glueComps (c :: cs) = '/' :: (c ++ glueComps cs) := by
      simp [glueComps]
    rw [hglue]
    have hcsep : ∀ x ∈ c, x ≠ '/' := fun x hx heq => hc.2 (heq ▸ hx)
    have hinner : tokensAux (c ++ glueComps cs) [] = c :: cs := by
      rw [tokensAux_across c _ [] hcsep, List.append_nil]
      rw [ih c.reverse fun u hu => hcomps u (List.mem_cons_of_mem _ hu)]
      rw [if_neg (by simpa using hc.1)]
      simp
    by_cases hcur : cur = []
    · simp only [tokensAux, if_pos rfl, if_pos hcur, hinner]
      simp
    · simp only [tokensAux, if_pos rfl, if_neg hcur, hinner]
      simp

/-- Tokenizing `"/c₁/…/cₙ"` returns `[c₁, …, cₙ]`. -/
theorem tokens_glue (comps : List (List Char))
    (h : ∀ c ∈ comps, c ≠ [] ∧ '/' ∉ c) : tokens (glueComps comps) = comps := by
  unfold tokens
  rw [tokensAux_glue comps [] h]
  simp

/-- Normalizing the root string is the identity whenever the output buffer
can hold it. -/
theorem normalize_root (size : Nat) (h2 : 2 ≤ size) :
    ftp_path_normalize ['/'] size = .ok ['/'] := by
  unfold ftp_path_normalize
  rw [if_neg (by omega), if_neg (by decide), if_neg (by decide)]
  have ht : processComponents (tokens ['/']) [] = some [] := rfl
  rw [ht]
  rw [if_neg (by omega)]

/-- Claim C10 (confirmed): `ftp_path_normalize` is idempotent at any buffer
capacity up to `FTP_PATH_MAX` — the capacity every caller in the program
uses — on every input it accepts. -/
theorem ftp_path_normalize_idem (p q : List Char) (size : Nat)
    (hsize : size ≤ FTP_PATH_MAX)
    (h : ftp_path_normalize p size = .ok q) :
    ftp_path_normalize q size = .ok q := by
  unfold ftp_path_normalize at h
  by_cases h0 : size = 0
  · rw [if_pos h0] at h
    exact absurd h (by simp)
  rw [if_neg h0] at h
  by_cases h1 : FTP_PATH_MAX ≤ p.length
  · rw [if_pos h1] at h
    exact absurd h (by simp)
  rw [if_neg h1] at h
  by_cases h2 : p.length = 0
  · rw [if_pos h2] at h
    by_cases h3 : size < 2
    · rw [if_pos h3] at h
      exact absurd h (by simp)
    · rw [if_neg h3] at h
      simp only [Except.ok.injEq] at h
      subst h
      exact normalize_root size (by omega)
  · rw [if_neg h2] at h
    cases hpc : processComponents (tokens p) [] with
    | none =>
      rw [hpc] at h
      exact absurd h (by simp)
    | some comps =>
      rw [hpc] at h
      obtain ⟨hgood, hcnt⟩ := processComponents_good (tokens p) [] comps
        (tokens_good p) (by simp) (by simp [MAX_PATH_COMPONENTS]) hpc
      cases comps with
      | nil =>
        by_cases h3 : size < 2
        · rw [if_pos h3] at h
          exact absurd h (by simp)
        · rw [if_neg h3] at h
          simp only [Except.ok.injEq] at h
          subst h
          exact normalize_root size (by omega)
      | cons c0 cs0 =>
        dsimp only at h
        cases hb : buildOutput (c0 :: cs0) 0 size with
        | none =>
          rw [hb] at h
          exact absurd h (by simp)
        | some out =>
          rw [hb] at h
          simp only [Except.ok.injEq] at h
          subst h
          obtain ⟨hout, hbound⟩ := buildOutput_eq (c0 :: cs0) 0 size out hb
          have hbound' : out.length + 1 ≤ size := by
            have := hbound (by simp)
            omega
          have houtne : out ≠ [] := by
            rw [hout]
            simp [glueComps]
          unfold ftp_path_normalize
          rw [if_neg h0]
          rw [if_neg (by omega : ¬ FTP_PATH_MAX ≤ out.length)]
          rw [if_neg (fun hc => houtne (List.length_eq_zero.mp hc))]
          have htok : tokens out = c0 :: cs0 := by
            rw [hout]
            exact tokens_glue _ fun c hc => ⟨(hgood c hc).1, (hgood c hc).2.1⟩
          rw [htok]
          rw [processComponents_id (c0 :: cs0) [] (fun t ht => hgood t ht)
            (by simpa using hcnt)]
          simp only [List.nil_append]
          rw [hb]

/-- Witness for C10 at the concrete input `/a/../b//./c`, which normalizes
to `/b/c`. -/
theorem ftp_path_normalize_idem_witness :
    ftp_path_normalize ("/b/c".toList) FTP_PATH_MAX = .ok ("/b/c".toList) :=
  ftp_path_normalize_idem ("/a/../b//./c".toList) ("/b/c".toList) FTP_PATH_MAX
    (le_refl _) (by rfl)

end ZFtpd
